import Mathlib

/-!
Verification of the Jynco render-orchestration core against its
natural-language specification.

The definitions below are a shallow embedding of the Python source:

* `backend/services/orchestrator.py`   (`RenderOrchestrator`)
* `backend/services/rabbitmq_client.py` (`RabbitMQClient.consume_messages`)
* `backend/api/segments.py`            (`update_segment`)
* `workers/ai_worker/worker.py`        (`AIWorker.process_segment_task`)
* `workers/composition_worker/worker.py` (`CompositionWorker.process_composition_task`)

Database rows become Lean structures, SQLAlchemy sessions become an explicit
`DB` value threaded through the handlers, the RabbitMQ queues become lists,
Redis (advisory progress cache) becomes a small assoc-list store, and the
external adapter / object storage / ffmpeg side effects are supplied by
oracle records so that each handler is a pure, executable function.
-/

/-- `Segment.status` column (`backend/models/segment.py`, `SegmentStatus`). -/
inductive SegmentStatus
  | pending
  | generating
  | completed
  | failed
deriving DecidableEq, Repr

/-- `RenderJob.status` column (`backend/models/render_job.py`, `RenderJobStatus`). -/
inductive RenderJobStatus
  | pending
  | processing
  | compositing
  | completed
  | failed
deriving DecidableEq, Repr

/-- Adapter-side generation status (`workers/ai_worker/adapters/base.py`,
`GenerationStatus`). -/
inductive GenerationStatus
  | pending
  | processing
  | completed
  | failed
deriving DecidableEq, Repr

/-- `model_params` JSONB column: an opaque map carrying at least the optional
`model` key (used by the worker to select an adapter) plus adapter-specific
fields, kept opaque here. -/
structure ModelParams where
  model : Option String
  extra : List (String × String)
deriving DecidableEq, Repr

/-- `model_params.get("model", "mock-ai")` from `AIWorker.process_segment_task`. -/
def ModelParams.modelName (p : ModelParams) : String :=
  p.model.getD "mock-ai"

/-- Python truthiness of a nullable string column: `not x` is true exactly
when the value is `None` or the empty string. -/
def pyFalsyStr : Option String → Bool
  | none => true
  | some s => s.isEmpty

/-- Does `pre` occur as an initial run of `s`? (char-list form of Python
`str.startswith`, executable in the kernel). -/
def charsLead : (pre s : List Char) → Bool
  | [], _ => true
  | _ :: _, [] => false
  | a :: as, b :: bs => decide (a = b) && charsLead as bs

/-- Python `s.startswith(pre)`. -/
def pyStartsWith (s pre : String) : Bool :=
  charsLead pre.data s.data

/-- Left-to-right non-overlapping split on a non-empty separator, with fuel
(one unit per consumed character) so that it is structural and computes in
the kernel. -/
def pySplitOnAux (sep : List Char) : Nat → List Char → List Char → List (List Char)
  | _, [], acc => [acc.reverse]
  | 0, s, acc => [acc.reverse ++ s]
  | fuel + 1, c :: rest, acc =>
      if charsLead sep (c :: rest) then
        acc.reverse :: pySplitOnAux sep fuel (List.drop sep.length (c :: rest)) []
      else
        pySplitOnAux sep fuel rest (c :: acc)

/-- Python `s.split(sep)` for non-empty `sep` (the only way the source
calls it). -/
def pySplitOn (s sep : String) : List String :=
  if sep.isEmpty then [s]
  else (pySplitOnAux sep.data s.data.length s.data []).map String.mk

/-- A row of the `segments` table (`backend/models/segment.py`).  Ids are
opaque tokens, modelled as `Nat`.  `error_code` is assigned by the worker on
the in-memory object (`segment.error_code = ...`); we keep it as a field. -/
structure Segment where
  id : Nat
  project_id : Nat
  order_index : Nat
  prompt : String
  model_params : ModelParams
  status : SegmentStatus
  s3_asset_url : Option String
  error_message : Option String
  error_code : Option String
  external_job_id : Option String
deriving DecidableEq, Repr

/-- A row of the `render_jobs` table (`backend/models/render_job.py`).
`segment_ids` is the JSONB snapshot of the project's segment id list;
`created_at` is the timestamp used by `order_by(created_at.desc())`. -/
structure RenderJob where
  id : Nat
  project_id : Nat
  status : RenderJobStatus
  segments_total : Nat
  segments_completed : Nat
  segment_ids : List Nat
  s3_final_url : Option String
  error_message : Option String
  created_at : Nat
deriving DecidableEq, Repr

/-- A row of the `projects` table (only the fields the core reads). -/
structure Project where
  id : Nat
  name : String
deriving DecidableEq, Repr

/-- The relational state store: one list per table. -/
structure DB where
  projects : List Project
  segments : List Segment
  render_jobs : List RenderJob
deriving DecidableEq, Repr

/-- `db.query(Project).filter(Project.id == pid).first()`. -/
def DB.findProject (db : DB) (pid : Nat) : Option Project :=
  db.projects.find? (fun p => decide (p.id = pid))

/-- `db.query(Segment).filter(Segment.id == sid).first()`. -/
def DB.findSegment (db : DB) (sid : Nat) : Option Segment :=
  db.segments.find? (fun s => decide (s.id = sid))

/-- `db.query(RenderJob).filter(RenderJob.id == rid).first()`. -/
def DB.findRenderJob (db : DB) (rid : Nat) : Option RenderJob :=
  db.render_jobs.find? (fun r => decide (r.id = rid))

/-- The `project.segments` relationship: the segment rows whose
`project_id` is the project's id, in table order. -/
def DB.projectSegments (db : DB) (pid : Nat) : List Segment :=
  db.segments.filter (fun s => decide (s.project_id = pid))

/-- Commit an update of one segment row (identified by id). -/
def DB.setSegment (db : DB) (sid : Nat) (f : Segment → Segment) : DB :=
  { db with segments := db.segments.map (fun s => if s.id = sid then f s else s) }

/-- Commit an update of one render-job row (identified by id). -/
def DB.setRenderJob (db : DB) (rid : Nat) (f : RenderJob → RenderJob) : DB :=
  { db with render_jobs := db.render_jobs.map (fun r => if r.id = rid then f r else r) }

/-- Body of a `segment_generation` queue message
(`RabbitMQClient.publish_segment_task`). -/
structure SegTask where
  segment_id : Nat
  render_job_id : Nat
  prompt : String
  model_params : ModelParams
deriving DecidableEq, Repr

/-- Body of a `video_composition` queue message
(`RabbitMQClient.publish_composition_task`). -/
structure CompTask where
  render_job_id : Nat
  project_id : Nat
  segment_ids : List Nat
deriving DecidableEq, Repr

/-- Body of a `segment_completed` fanout event
(`RabbitMQClient.publish_segment_completed_event`). -/
structure SegEvent where
  segment_id : Nat
  render_job_id : Nat
deriving DecidableEq, Repr

/-- The broker: the two durable queues and the fanout exchange, each a list
of published message bodies (append = publish). -/
structure Broker where
  segment_generation : List SegTask
  video_composition : List CompTask
  segment_completed : List SegEvent
deriving DecidableEq, Repr

/-- Advisory progress record kept per render job in Redis
(`RedisClient.set_render_job_progress`). -/
structure RedisJobProgress where
  segments_total : Nat
  segments_completed : Nat
  status : String
deriving DecidableEq, Repr

/-- The advisory Redis cache: per-render-job progress hashes and the last
written per-segment status. -/
structure Redis where
  jobs : List (Nat × RedisJobProgress)
  segment_status : List (Nat × String)
deriving DecidableEq, Repr

/-- Overwrite-or-insert into an assoc list (Redis key write). -/
def assocSet {α : Type} (l : List (Nat × α)) (k : Nat) (v : α) : List (Nat × α) :=
  (k, v) :: l.filter (fun p => decide (p.1 ≠ k))

/-- `RedisClient.set_segment_status`. -/
def Redis.setSegmentStatus (r : Redis) (sid : Nat) (st : String) : Redis :=
  { r with segment_status := assocSet r.segment_status sid st }

/-- `RedisClient.set_render_job_progress`. -/
def Redis.setRenderJobProgress (r : Redis) (rid total completed : Nat)
    (st : String) : Redis :=
  { r with jobs := assocSet r.jobs rid ⟨total, completed, st⟩ }

/-- `RedisClient.increment_render_job_progress`: `hincrby` on the
`segments_completed` field (creating the hash with counter 1 if absent). -/
def Redis.incrementRenderJobProgress (r : Redis) (rid : Nat) : Redis :=
  match r.jobs.find? (fun p => decide (p.1 = rid)) with
  | some (_, pr) =>
      let pr2 : RedisJobProgress :=
        { pr with segments_completed := pr.segments_completed + 1 }
      { r with jobs := assocSet r.jobs rid pr2 }
  | none =>
      { r with jobs := assocSet r.jobs rid ⟨0, 1, ""⟩ }

/-- The full world the handlers act on: state store, broker, cache, and the
set of object-storage keys that hold a blob. -/
structure World where
  db : DB
  broker : Broker
  redis : Redis
  storage : List String
deriving DecidableEq, Repr

/-- Python `x in l` / `x not in l` membership test on an id list. -/
def memId (a : Nat) (l : List Nat) : Bool :=
  l.any (fun x => decide (x = a))

/-- `S3Client.generate_segment_key`: `segments/{project_id}/{segment_id}.mp4`. -/
def segmentKey (pid sid : Nat) : String :=
  "segments/" ++ toString pid ++ "/" ++ toString sid ++ ".mp4"

/-! ## Render orchestrator (`backend/services/orchestrator.py`) -/

/-- The `ValueError`s raised synchronously by
`RenderOrchestrator.create_render_job`. -/
inductive RenderError
  | projectNotFound (pid : Nat)
  | emptyProject (pid : Nat)
deriving DecidableEq, Repr

/-- The most recent COMPLETED render job of the project:
`filter(project_id == pid, status == COMPLETED).order_by(created_at.desc()).first()`.
Among rows with maximal `created_at` the first in table order is returned. -/
def lastCompletedRenderJob (db : DB) (pid : Nat) : Option RenderJob :=
  (db.render_jobs.filter
      (fun r => decide (r.project_id = pid) && decide (r.status = .completed))).foldl
    (fun acc r =>
      match acc with
      | none => some r
      | some a => if r.created_at > a.created_at then some r else acc)
    none

/-- `RenderOrchestrator._identify_segments_to_regenerate`, verbatim from the
source: with no prior completed render, keep every segment whose status is
not COMPLETED; otherwise keep every segment whose id is not in the prior
render's `segment_ids`, or whose status is not COMPLETED, or whose
`s3_asset_url` is falsy (`not segment.s3_asset_url`). -/
def identify_segments_to_regenerate (current : List Segment)
    (last : Option RenderJob) : List Segment :=
  match last with
  | none => current.filter (fun s => decide (s.status ≠ .completed))
  | some lr =>
      current.filter (fun s =>
        !(memId s.id lr.segment_ids)
          || decide (s.status ≠ .completed)
          || pyFalsyStr s.s3_asset_url)

/-- `RenderOrchestrator._dispatch_segment_task`: set the segment's status to
GENERATING (commit), mirror it to Redis, and publish the generation task. -/
def dispatch_segment_task (w : World) (seg : Segment) (rid : Nat) : World :=
  let db := w.db.setSegment seg.id (fun s => { s with status := .generating })
  let redis := w.redis.setSegmentStatus seg.id "generating"
  let broker := { w.broker with
    segment_generation := w.broker.segment_generation
      ++ [⟨seg.id, rid, seg.prompt, seg.model_params⟩] }
  { w with db := db, redis := redis, broker := broker }

/-- `RenderOrchestrator.create_render_job`.  Returns the world (the session
state, unchanged when a `ValueError` is raised) together with either the
error or the returned `RenderJob` object.  `newId` stands for the generated
row id and `now` for the row's `created_at`. -/
def create_render_job (w : World) (newId now pid : Nat) :
    World × Except RenderError RenderJob :=
  match w.db.findProject pid with
  | none => (w, .error (.projectNotFound pid))
  | some _ =>
      let segs := w.db.projectSegments pid
      if segs.isEmpty then
        (w, .error (.emptyProject pid))
      else
        let last := lastCompletedRenderJob w.db pid
        let toGen := identify_segments_to_regenerate segs last
        let rj : RenderJob :=
          { id := newId
            project_id := pid
            status := .pending
            segments_total := toGen.length
            segments_completed := 0
            segment_ids := segs.map (fun s => s.id)
            s3_final_url := none
            error_message := none
            created_at := now }
        let db1 := { w.db with render_jobs := w.db.render_jobs ++ [rj] }
        let redis1 := w.redis.setRenderJobProgress newId toGen.length 0 "processing"
        let db2 := db1.setRenderJob newId (fun r => { r with status := .processing })
        let w1 : World := { w with db := db2, redis := redis1 }
        let w2 := toGen.foldl (fun acc seg => dispatch_segment_task acc seg newId) w1
        (w2, .ok { rj with status := .processing })

/-! ## AI worker (`workers/ai_worker/worker.py`) -/

/-- An `AdapterError` (`workers/ai_worker/adapters/exceptions.py`): message,
machine-readable code and the retryability classification. -/
structure AdapterErrorInfo where
  message : String
  error_code : Option String
  is_retryable : Bool
deriving DecidableEq, Repr

/-- Outcome of one call to `adapter.initiate_generation`. -/
inductive InitiateOutcome
  | ok (external_job_id : String)
  | adapterError (e : AdapterErrorInfo)
deriving DecidableEq, Repr

/-- A `GenerationResult` (`workers/ai_worker/adapters/base.py`); the worker
reads `metadata.get("error_code")`, kept here as the `error_code` field. -/
structure GenResult where
  status : GenerationStatus
  video_url : Option String
  error_message : Option String
  error_code : Option String
deriving DecidableEq, Repr

/-- Outcome of `AIWorker._poll_for_completion`: either a terminal
`GenerationResult` within the 180-attempt budget, or a `TimeoutError`. -/
inductive PollOutcome
  | result (r : GenResult)
  | timeout
deriving DecidableEq, Repr

/-- External effects the worker's handling of one message depends on:
the process environment (API keys), the successive outcomes of the
adapter's `initiate_generation` calls (indexed by attempt number), the poll
loop outcome, and whether downloading the produced asset succeeds. -/
structure AdapterOracle where
  apiKeyPresent : String → Bool
  initiate : Nat → InitiateOutcome
  poll : PollOutcome
  fetchOk : Bool

/-- The adapter registry of `VideoModelFactory._adapters`
(`workers/ai_worker/adapters/factory.py`). -/
def supportedModels : List String :=
  ["runway-gen3", "runway", "stability-ai", "stability", "mock-ai", "mock"]

/-- Python `str.lower()` on ASCII model names. -/
def pyLower (s : String) : String :=
  String.mk (s.data.map Char.toLower)

/-- `VideoModelFactory.create`: unknown names and (for non-mock models)
missing API keys raise `ValueError`; the mock adapter needs no key. -/
def factoryCreate (keyPresent : String → Bool) (modelName : String) :
    Except String Unit :=
  let lower := pyLower modelName
  if !(supportedModels.any (fun m => decide (m = lower))) then
    .error ("Unsupported model: " ++ modelName)
  else if lower = "mock" || lower = "mock-ai" then
    .ok ()
  else if keyPresent lower then
    .ok ()
  else
    .error ("API key required for " ++ modelName)

/-- `AIWorker._handle_segment_failure`: commit Segment.status = FAILED with
the error message and code, then mirror FAILED into Redis.  The
`is_retryable` argument of the source is only logged and has no effect. -/
def handle_segment_failure (w : World) (sid : Nat) (msgText : String)
    (code : Option String) : World :=
  let db := w.db.setSegment sid (fun s =>
    { s with status := .failed
             error_message := some msgText
             error_code := code })
  let redis := w.redis.setSegmentStatus sid "failed"
  { w with db := db, redis := redis }

/-- `AIWorker.process_segment_task` on one `segment_generation` message.
Returns the resulting world together with the number of
`adapter.initiate_generation` calls performed (the source calls it at most
once; there is no retry loop around it, and no check of the segment's
current status before driving the adapter).  On the success path the worker
uploads the asset, commits Segment COMPLETED with the deterministic S3 URL,
mirrors it to Redis, increments the Redis (not database) progress counter,
and publishes a `segment_completed` event; it never touches the RenderJob
row and never publishes a composition task. -/
def process_segment_task (w : World) (msg : SegTask) (oracle : AdapterOracle) :
    World × Nat :=
  let sid := msg.segment_id
  let rid := msg.render_job_id
  -- self.redis.set_segment_status(..., GENERATING, ...)
  let w := { w with redis := w.redis.setSegmentStatus sid "generating" }
  let modelName := msg.model_params.modelName
  match factoryCreate oracle.apiKeyPresent modelName with
  | .error _ =>
      -- ValueError from the factory reaches the catch-all handler
      (handle_segment_failure w sid
        "An unexpected error occurred during video generation."
        (some "INTERNAL_ERROR"), 0)
  | .ok _ =>
      match oracle.initiate 0 with
      | .adapterError e =>
          -- except AdapterError around initiate_generation: fail and return
          (handle_segment_failure w sid e.message e.error_code, 1)
      | .ok ejid =>
          -- persist external_job_id on the Segment row
          let w := { w with db := w.db.setSegment sid (fun s =>
            { s with external_job_id := some ejid }) }
          match oracle.poll with
          | .timeout =>
              (handle_segment_failure w sid
                "Video generation timed out. The service may be overloaded."
                (some "COMFYUI_TIMEOUT"), 1)
          | .result r =>
              if decide (r.status = .completed) && !(pyFalsyStr r.video_url) then
                -- _upload_to_s3 skips the network fetch for mock-cdn URLs
                if !(pyStartsWith (r.video_url.getD "") "https://mock-cdn")
                    && !oracle.fetchOk then
                  -- download of the produced asset raised: catch-all handler
                  (handle_segment_failure w sid
                    "An unexpected error occurred during video generation."
                    (some "INTERNAL_ERROR"), 1)
                else
                  -- _upload_to_s3: project_id from the row (or sid if absent),
                  -- deterministic key, upload, return the storage URL
                  let pid := match w.db.findSegment sid with
                    | some s => s.project_id
                    | none => sid
                  let key := segmentKey pid sid
                  let url := "https://bucket.s3.region.amazonaws.com/" ++ key
                  let w := { w with storage := key :: w.storage }
                  let w := { w with db := w.db.setSegment sid (fun s =>
                    { s with status := .completed, s3_asset_url := some url }) }
                  let w := { w with redis := w.redis.setSegmentStatus sid "completed" }
                  let w := { w with redis := w.redis.incrementRenderJobProgress rid }
                  let w := { w with broker := { w.broker with
                    segment_completed := w.broker.segment_completed ++ [⟨sid, rid⟩] } }
                  (w, 1)
              else
                let errMsg := r.error_message.getD "Unknown error during generation"
                (handle_segment_failure w sid errMsg r.error_code, 1)

/-! ## Composition worker (`workers/composition_worker/worker.py`) -/

/-- External effects of one composition task: which storage client is in
use (`hasattr(self.storage, "bucket_name")` — `S3Client` has a
`bucket_name`, `LocalStorageClient` does not), local-file existence,
per-key download success, and the ffmpeg run outcome. -/
structure CompEnv where
  storageHasBucketName : Bool
  bucketName : String
  fileExists : String → Bool
  downloadOk : String → Bool
  ffmpegOk : Bool
  ffmpegStderr : String

/-- The worker's local filesystem activity for one task: a supply of fresh
temp-file names plus the lists of files it created and deleted. -/
structure FS where
  counter : Nat
  created : List String
  deleted : List String
deriving DecidableEq, Repr

/-- `tempfile.NamedTemporaryFile(delete=False)`: a fresh per-task file. -/
def FS.fresh (fs : FS) : String × FS :=
  let name := "tmp" ++ toString fs.counter
  (name, { fs with counter := fs.counter + 1, created := fs.created ++ [name] })

/-- `Path(f).unlink(missing_ok=True)`. -/
def FS.remove (fs : FS) (f : String) : FS :=
  { fs with deleted := fs.deleted ++ [f] }

/-- Python `s.replace(pat, "")` (removes every occurrence). -/
def pyStripAll (s pat : String) : String :=
  String.intercalate "" (pySplitOn s pat)

/-- The storage-key parse in `CompositionWorker._download_segments`:
`asset_url.split(f"{bucket}.s3.")[-1].split("/", 1)[-1] if "/" in asset_url
else None`. -/
def extractStorageKey (bucket url : String) : Option String :=
  if (pySplitOn url "/").length = 1 then
    none
  else
    let tailPart := (pySplitOn url (bucket ++ ".s3.")).getLastD url
    match pySplitOn tailPart "/" with
    | [] => some tailPart
    | [x] => some x
    | _ :: rest => some (String.intercalate "/" rest)

/-- One iteration of the `_download_segments` loop
(`CompositionWorker._download_segments`) for a single segment id: skip the
row when it is missing or its `s3_asset_url` is falsy; for a `file://` URL
append the stored blob's local path itself (no temp file, no copy) when it
exists; otherwise, when the storage client has a `bucket_name`, parse the
key, create a temp file and download into it, appending the temp path on
success (the temp file stays behind when the download fails). -/
def download_one (db : DB) (env : CompEnv) (sid : Nat) (fs : FS) :
    Option String × FS :=
  match db.findSegment sid with
  | none => (none, fs)
  | some seg =>
      match seg.s3_asset_url with
      | none => (none, fs)
      | some url =>
          if url.isEmpty then (none, fs)
          else if pyStartsWith url "file://" then
            let localPath := pyStripAll url "file://"
            if env.fileExists localPath then (some localPath, fs)
            else (none, fs)
          else if env.storageHasBucketName then
            match extractStorageKey env.bucketName url with
            | none => (none, fs)
            | some key =>
                if key.isEmpty then (none, fs)
                else
                  let (tmp, fs2) := fs.fresh
                  if env.downloadOk key then (some tmp, fs2)
                  else (none, fs2)
          else (none, fs)

/-- `CompositionWorker._download_segments`: walk `segment_ids` in order,
accumulating local file paths and filesystem activity. -/
def download_segments (db : DB) (env : CompEnv) :
    List Nat → FS → List String × FS
  | [], fs => ([], fs)
  | sid :: rest, fs =>
      let step := download_one db env sid fs
      let (restFiles, fsEnd) := download_segments db env rest step.2
      match step.1 with
      | some f => (f :: restFiles, fsEnd)
      | none => (restFiles, fsEnd)

/-- `CompositionWorker._compose_video`: create the concat manifest and the
output temp file, run ffmpeg (`-f concat -safe 0 -i manifest -c copy -y
out`); on non-zero exit raise with the captured stderr; the `finally` block
deletes the concat manifest on both paths. -/
def compose_video (env : CompEnv) (fs : FS) : FS × Except String String :=
  let (concatFile, fs) := fs.fresh
  let (outputFile, fs) := fs.fresh
  if env.ffmpegOk then
    (fs.remove concatFile, .ok outputFile)
  else
    (fs.remove concatFile, .error ("FFMPEG failed: " ++ env.ffmpegStderr))

/-- `CompositionWorker._cleanup_files`.  In the source this is invoked only
from the success path of `process_composition_task`, after the upload and
the completion log; the `AttributeError` at the missing
`generate_composition_key` call (worker.py line 96) fires first, and the
`except` branch never invokes it, so no call to it is reachable. -/
def cleanup_files (fs : FS) (paths : List String) : FS :=
  paths.foldl FS.remove fs

/-- Result of one composition task: the state-store, cache and storage
state plus the task's local filesystem activity. -/
structure CompResult where
  db : DB
  redis : Redis
  storage : List String
  fs : FS
deriving Repr

/-- The `except Exception` branch of
`CompositionWorker.process_composition_task`: mark the render job FAILED
with the exception text and mirror FAILED into Redis.  It performs no file
cleanup. -/
def compositionExceptBranch (db : DB) (redis : Redis) (storage : List String)
    (fs : FS) (msg : CompTask) (errMsg : String) : CompResult :=
  let db2 := db.setRenderJob msg.render_job_id (fun r =>
    { r with status := .failed, error_message := some errMsg })
  let redis2 := redis.setRenderJobProgress msg.render_job_id
    msg.segment_ids.length msg.segment_ids.length "failed"
  ⟨db2, redis2, storage, fs⟩

/-- `CompositionWorker.process_composition_task` on one `video_composition`
message.  After a successful ffmpeg run the source calls
`self.storage.generate_composition_key(project_id, render_job_id)`
(worker.py line 96), but neither `S3Client` nor `LocalStorageClient`
defines that method (both define `generate_final_video_key`, which nothing
calls), so an `AttributeError` is raised there — before the upload, before
the COMPLETED/`s3_final_url` commit, and before the completion log and
`_cleanup_files` — and the `except` branch marks the job FAILED with the
exception text, leaving `s3_final_url` untouched.  Every exit path of the
handler therefore ends in the except branch. -/
def process_composition_task (w : World) (env : CompEnv) (msg : CompTask) :
    CompResult :=
  let db := w.db.setRenderJob msg.render_job_id (fun r =>
    { r with status := .compositing })
  let redis := w.redis.setRenderJobProgress msg.render_job_id
    msg.segment_ids.length msg.segment_ids.length "compositing"
  let fs0 : FS := ⟨0, [], []⟩
  let (files, fs) := download_segments db env msg.segment_ids fs0
  if files.isEmpty then
    compositionExceptBranch db redis w.storage fs msg "No segment files to compose"
  else
    match compose_video env fs with
    | (fs2, .error e) => compositionExceptBranch db redis w.storage fs2 msg e
    | (fs2, .ok _outputFile) =>
        -- worker.py line 96: `self.storage.generate_composition_key(...)`
        -- does not exist on either storage client, so an AttributeError
        -- jumps to the except branch with the message (Python renders the
        -- two names quoted) before any upload or COMPLETED commit; the
        -- `_cleanup_files` call further down is unreachable.
        let clientName :=
          if env.storageHasBucketName then "S3Client" else "LocalStorageClient"
        compositionExceptBranch db redis w.storage fs2 msg
          (clientName ++ " object has no attribute generate_composition_key")

/-! ## Broker consumer (`RabbitMQClient.consume_messages`) -/

/-- What the consumer callback did with the delivery tag. -/
inductive AckAction
  | acked
  | nackedRequeue
  | nackedNoRequeue
  | noAction
deriving DecidableEq, Repr

/-- `message_callback` inside `RabbitMQClient.consume_messages`: parse the
body and run the handler; on success `basic_ack`; on any exception
`basic_nack(..., requeue=False)`.  With `auto_ack=True` neither call is
made.  `parseOk` stands for `json.loads` succeeding and `handlerOk` for the
handler returning without raising. -/
def message_callback (autoAck parseOk handlerOk : Bool) : AckAction :=
  if parseOk && handlerOk then
    if autoAck then .noAction else .acked
  else
    if autoAck then .noAction else .nackedNoRequeue

/-- AMQP semantics of the callback's action for a queue declared without a
dead-letter exchange (as `declare_queue` does): only a nack with
`requeue=True` puts the message back for redelivery; a nack with
`requeue=False` discards it; an ack (or auto-ack) settles it. -/
def brokerRedelivers : AckAction → Bool
  | .acked => false
  | .nackedRequeue => true
  | .nackedNoRequeue => false
  | .noAction => false

/-! ## Segment update endpoint (`backend/api/segments.py`) -/

/-- The `SegmentUpdate` request schema: all fields optional. -/
structure SegmentUpdate where
  order_index : Option Nat
  prompt : Option String
  model_params : Option ModelParams
deriving DecidableEq, Repr

/-- The field mutation performed by `update_segment` on an existing row:
each supplied field is written; supplying `prompt` or `model_params` also
resets the status to PENDING and nulls `s3_asset_url`. -/
def update_segment (s : Segment) (u : SegmentUpdate) : Segment :=
  let s1 := match u.order_index with
    | some i => { s with order_index := i }
    | none => s
  let s2 := match u.prompt with
    | some p => { s1 with prompt := p, status := .pending, s3_asset_url := none }
    | none => s1
  match u.model_params with
  | some mp => { s2 with model_params := mp, status := .pending, s3_asset_url := none }
  | none => s2

/-! ## Claim-side predicates and concrete fixtures -/

/-- The regeneration condition exactly as the specification words it for the
case of a prior completed render: id absent from the prior render's
`segment_ids`, or status not COMPLETED, or asset URL null. -/
def specRegenCond (lr : RenderJob) (s : Segment) : Prop :=
  s.id ∉ lr.segment_ids ∨ s.status ≠ .completed ∨ s.s3_asset_url = none

instance (lr : RenderJob) (s : Segment) : Decidable (specRegenCond lr s) := by
  unfold specRegenCond; infer_instance

/-- The regeneration condition actually implemented: clause (c) also fires
when the asset URL is the empty string (`not segment.s3_asset_url` is
Python truthiness, not a null test). -/
def amendedRegenCond (lr : RenderJob) (s : Segment) : Prop :=
  s.id ∉ lr.segment_ids ∨ s.status ≠ .completed ∨
    s.s3_asset_url = none ∨ s.s3_asset_url = some ""

instance (lr : RenderJob) (s : Segment) : Decidable (amendedRegenCond lr s) := by
  unfold amendedRegenCond; infer_instance

/-- The invariant I2 of the specification stated over a database: every
render job's status is COMPLETED exactly when its final asset URL is
non-null. -/
def finalUrlInvariant (db : DB) : Prop :=
  ∀ r ∈ db.render_jobs, r.status = RenderJobStatus.completed ↔ r.s3_final_url ≠ none

instance (db : DB) : Decidable (finalUrlInvariant db) := by
  unfold finalUrlInvariant; infer_instance

/-- The inductive invariant the wired pipeline maintains: no render job has
a final asset URL and none is COMPLETED.  It holds in every state the
production handlers can produce, because nothing they run ever writes
`s3_final_url` or `status = COMPLETED`: the composition worker raises
`AttributeError` at the missing `generate_composition_key` before its
COMPLETED commit, and the orchestrator's `handle_composition_completion`
(the only other writer) is called by no production code. -/
def neverCompletedInv (db : DB) : Prop :=
  ∀ r ∈ db.render_jobs,
    r.s3_final_url = none ∧ r.status ≠ RenderJobStatus.completed

instance (db : DB) : Decidable (neverCompletedInv db) := by
  unfold neverCompletedInv; infer_instance

/-- The world after the composition worker handles one task (the broker is
untouched by the handler). -/
def World.afterComposition (w : World) (env : CompEnv) (msg : CompTask) : World :=
  let r := process_composition_task w env msg
  { db := r.db, broker := w.broker, redis := r.redis, storage := r.storage }

/-- One database-committing handler invocation of the pipeline as actually
wired: the API's `create_render` (`RenderOrchestrator.create_render_job`),
the AI worker's message handler, and the composition worker's message
handler.  `RenderOrchestrator.handle_segment_completion` and
`handle_composition_completion` are not steps: no production code invokes
them (only the e2e test does). -/
inductive HandlerStep : World → World → Prop
  | createRender (w : World) (newId now pid : Nat) :
      HandlerStep w (create_render_job w newId now pid).1
  | segmentTask (w : World) (msg : SegTask) (oracle : AdapterOracle) :
      HandlerStep w (process_segment_task w msg oracle).1
  | compositionTask (w : World) (env : CompEnv) (msg : CompTask) :
      HandlerStep w (w.afterComposition env msg)

/-- The composition handler's initial COMPOSITING status write. -/
def markCompositing (r : RenderJob) : RenderJob :=
  { r with status := .compositing }

/-- The composition handler's except-branch FAILED status write. -/
def markFailed (e : String) (r : RenderJob) : RenderJob :=
  { r with status := .failed, error_message := some e }

/-! ## Concrete fixtures -/

/-- A default segment row; fixtures override the relevant fields. -/
def baseSegment : Segment :=
  { id := 0, project_id := 0, order_index := 0, prompt := "", model_params := ⟨none, []⟩,
    status := .pending, s3_asset_url := none, error_message := none, error_code := none,
    external_job_id := none }

/-- A default render-job row; fixtures override the relevant fields. -/
def baseRenderJob : RenderJob :=
  { id := 0, project_id := 0, status := .pending, segments_total := 0,
    segments_completed := 0, segment_ids := [], s3_final_url := none,
    error_message := none, created_at := 0 }

/-- An empty broker. -/
def emptyBroker : Broker := ⟨[], [], []⟩

/-- An empty cache. -/
def emptyRedis : Redis := ⟨[], []⟩

/-- C9 fixture: a project with no segments. -/
def w9 : World :=
  { db := { projects := [⟨5, "proj"⟩], segments := [], render_jobs := [] },
    broker := emptyBroker, redis := emptyRedis, storage := [] }

/-- C5 fixture: a completed segment whose asset URL is the empty string. -/
def c5seg : Segment :=
  { baseSegment with id := 1, project_id := 5, status := .completed,
                     s3_asset_url := some "" }

/-- C5 fixture: the prior completed render that listed segment 1. -/
def c5last : RenderJob :=
  { baseRenderJob with id := 3, project_id := 5, status := .completed,
                       segments_total := 1, segments_completed := 1,
                       segment_ids := [1], s3_final_url := some "u" }

/-- C1 fixture: the one dispatched segment, already marked GENERATING. -/
def c1seg : Segment :=
  { baseSegment with id := 1, project_id := 5, prompt := "a",
                     model_params := ⟨some "mock", []⟩, status := .generating }

/-- C1 fixture: the render job awaiting its single segment. -/
def c1job : RenderJob :=
  { baseRenderJob with id := 9, project_id := 5, status := .processing,
                       segments_total := 1, segments_completed := 0,
                       segment_ids := [1] }

/-- C1 fixture: world state when the worker receives the message. -/
def c1world : World :=
  { db := { projects := [⟨5, "proj"⟩], segments := [c1seg], render_jobs := [c1job] },
    broker := emptyBroker, redis := emptyRedis, storage := [] }

/-- C1 fixture: an adapter run that succeeds and yields a fetchable asset. -/
def c1oracle : AdapterOracle :=
  { apiKeyPresent := fun _ => false,
    initiate := fun _ => .ok "ext1",
    poll := .result ⟨.completed, some "https://mock-cdn.example.com/v.mp4", none, none⟩,
    fetchOk := true }

/-- C1 run: the worker handles the final (only) segment of render job 9 on
the success path. -/
def c1run : World × Nat :=
  process_segment_task c1world ⟨1, 9, "a", ⟨some "mock", []⟩⟩ c1oracle

/-- C3 fixture: a segment that is already COMPLETED with a live asset URL
(the message being handled is a broker redelivery). -/
def c3seg : Segment :=
  { baseSegment with id := 1, project_id := 5, prompt := "a",
                     model_params := ⟨some "mock", []⟩, status := .completed,
                     s3_asset_url := some "https://bucket.s3.region.amazonaws.com/segments/5/1.mp4" }

/-- C3 fixture: the render job, already fully counted. -/
def c3job : RenderJob :=
  { baseRenderJob with id := 9, project_id := 5, status := .processing,
                       segments_total := 1, segments_completed := 1,
                       segment_ids := [1] }

/-- C3 fixture: world state at redelivery time. -/
def c3world : World :=
  { db := { projects := [⟨5, "proj"⟩], segments := [c3seg], render_jobs := [c3job] },
    broker := emptyBroker, redis := emptyRedis, storage := [] }

/-- C3 fixture: on the redelivered run the adapter is driven again and this
time reports a generation failure. -/
def c3oracle : AdapterOracle :=
  { apiKeyPresent := fun _ => false,
    initiate := fun _ => .ok "ext2",
    poll := .result ⟨.failed, none, some "boom", some "COMFYUI_GENERATION_ERROR"⟩,
    fetchOk := true }

/-- C3 run: redelivery of the generation message for completed segment 1. -/
def c3run : World × Nat :=
  process_segment_task c3world ⟨1, 9, "a", ⟨some "mock", []⟩⟩ c3oracle

/-- C4 fixture: first completed segment. -/
def c4seg1 : Segment :=
  { baseSegment with id := 1, project_id := 5, status := .completed,
                     s3_asset_url := some "u1" }

/-- C4 fixture: second completed segment. -/
def c4seg2 : Segment :=
  { baseSegment with id := 2, project_id := 5, status := .completed,
                     s3_asset_url := some "u2" }

/-- C4 fixture: the prior completed render job for the project. -/
def c4prior : RenderJob :=
  { baseRenderJob with id := 3, project_id := 5, status := .completed,
                       segments_total := 2, segments_completed := 2,
                       segment_ids := [1, 2], s3_final_url := some "f" }

/-- C4 fixture: a project whose two segments are both COMPLETED with live
asset URLs, plus its prior completed render job. -/
def c4world : World :=
  { db := { projects := [⟨5, "proj"⟩], segments := [c4seg1, c4seg2],
            render_jobs := [c4prior] },
    broker := emptyBroker, redis := emptyRedis, storage := [] }

/-- C4 run: `create_render` on the all-completed project (fresh row id 9,
`created_at` 10). -/
def c4run : World × Except RenderError RenderJob :=
  create_render_job c4world 9 10 5

/-- C6 fixture: a pending segment about to be generated. -/
def c6seg : Segment :=
  { baseSegment with id := 1, project_id := 5, prompt := "a",
                     model_params := ⟨some "mock", []⟩ }

/-- C6 fixture: the render job awaiting that segment. -/
def c6job : RenderJob :=
  { baseRenderJob with id := 9, project_id := 5, status := .processing,
                       segments_total := 1, segment_ids := [1] }

/-- C6 fixture: world state when the worker receives the message. -/
def c6world : World :=
  { db := { projects := [⟨5, "proj"⟩], segments := [c6seg], render_jobs := [c6job] },
    broker := emptyBroker, redis := emptyRedis, storage := [] }

/-- C6 fixture: an adapter whose `initiate_generation` raises a retryable
CONNECTION error on the first attempt and would succeed on the second. -/
def c6oracle : AdapterOracle :=
  { apiKeyPresent := fun _ => false,
    initiate := fun n =>
      if n = 0 then
        .adapterError ⟨"Cannot connect to ComfyUI service",
          some "COMFYUI_CONNECTION_ERROR", true⟩
      else .ok "ext3",
    poll := .result ⟨.completed, some "https://mock-cdn.example.com/v.mp4", none, none⟩,
    fetchOk := true }

/-- C6 run: the worker handles the generation message against `c6oracle`. -/
def c6run : World × Nat :=
  process_segment_task c6world ⟨1, 9, "a", ⟨some "mock", []⟩⟩ c6oracle

/-- C2 fixture: the segment whose blob feeds the composition (a local
`file://` asset, as produced with the local storage client). -/
def c2seg : Segment :=
  { baseSegment with id := 1, project_id := 5, status := .completed,
                     s3_asset_url := some "file:///blob1.mp4" }

/-- C2 fixture: the render job being composed. -/
def c2job : RenderJob :=
  { baseRenderJob with id := 9, project_id := 5, status := .compositing,
                       segments_total := 1, segments_completed := 1,
                       segment_ids := [1] }

/-- C2 fixture: world state when the composition worker receives the task. -/
def c2world : World :=
  { db := { projects := [⟨5, "proj"⟩], segments := [c2seg], render_jobs := [c2job] },
    broker := emptyBroker, redis := emptyRedis, storage := [] }

/-- C2 fixture: local storage client (no `bucket_name`), the blob file
exists, and ffmpeg succeeds — the nominal success scenario. -/
def c2env : CompEnv :=
  { storageHasBucketName := false, bucketName := "",
    fileExists := fun _ => true, downloadOk := fun _ => true,
    ffmpegOk := true, ffmpegStderr := "" }

/-- C8 fixture: a completed segment stored under an S3-style URL, so the
worker downloads it into a per-task temp file. -/
def c8seg : Segment :=
  { baseSegment with id := 1, project_id := 5, status := .completed,
                     s3_asset_url := some "https://mybucket.s3.us-east-1.amazonaws.com/segments/5/1.mp4" }

/-- C8 fixture: the render job being composed. -/
def c8job : RenderJob :=
  { baseRenderJob with id := 9, project_id := 5, status := .compositing,
                       segments_total := 1, segments_completed := 1,
                       segment_ids := [1] }

/-- C8 fixture: world state; the storage already holds the segment blob. -/
def c8world : World :=
  { db := { projects := [⟨5, "proj"⟩], segments := [c8seg], render_jobs := [c8job] },
    broker := emptyBroker, redis := emptyRedis, storage := ["segments/5/1.mp4"] }

/-- C8 fixture: S3 storage client, download and ffmpeg both succeed. -/
def c8env : CompEnv :=
  { storageHasBucketName := true, bucketName := "mybucket",
    fileExists := fun _ => false, downloadOk := fun _ => true,
    ffmpegOk := true, ffmpegStderr := "" }

/-- C8 run: the composition task for render job 9. -/
def c8run : CompResult :=
  process_composition_task c8world c8env ⟨9, 5, [1]⟩

/-- C10 fixture: a completed segment with all result fields populated. -/
def s10 : Segment :=
  { baseSegment with id := 1, project_id := 5, order_index := 2, prompt := "sunrise",
                     model_params := ⟨some "mock", [("duration", "5")]⟩,
                     status := .completed, s3_asset_url := some "u",
                     external_job_id := some "e" }

/-! ## Helper lemmas -/

/-- `memId` agrees with list membership. -/
theorem memId_eq_mem (a : Nat) (l : List Nat) : memId a l = decide (a ∈ l) := by
  rw [Bool.eq_iff_iff]
  simp [memId]

/-- The boolean regeneration test of the source equals the amended
condition. -/
theorem regen_test_eq_amended (lr : RenderJob) (s : Segment) :
    (!(memId s.id lr.segment_ids) || decide (s.status ≠ .completed)
        || pyFalsyStr s.s3_asset_url)
      = decide (amendedRegenCond lr s) := by
  rw [Bool.eq_iff_iff]
  cases h : s.s3_asset_url with
  | none => simp [memId_eq_mem, amendedRegenCond, pyFalsyStr, h]
  | some u =>
      simp [memId_eq_mem, amendedRegenCond, pyFalsyStr, h, String.isEmpty_iff]
      tauto

/-- `setRenderJob` never touches the segments table. -/
theorem setRenderJob_segments (db : DB) (rid : Nat) (f : RenderJob → RenderJob) :
    (db.setRenderJob rid f).segments = db.segments := rfl

/-- `download_one` never deletes a file. -/
theorem download_one_deleted (db : DB) (env : CompEnv) (sid : Nat) (fs : FS) :
    ((download_one db env sid fs).2).deleted = fs.deleted := by
  unfold download_one FS.fresh
  dsimp only
  repeat' split
  all_goals simp_all

/-- `download_segments` never deletes a file. -/
theorem download_segments_deleted (db : DB) (env : CompEnv) (sids : List Nat) :
    ∀ fs : FS, ((download_segments db env sids fs).2).deleted = fs.deleted := by
  induction sids with
  | nil => intro fs; rfl
  | cons sid rest ih =>
      intro fs
      rw [download_segments]
      rcases hdl : download_segments db env rest (download_one db env sid fs).2
        with ⟨restFiles, fsEnd⟩
      have h2 : fsEnd.deleted = fs.deleted := by
        have h3 := ih (download_one db env sid fs).2
        rw [hdl] at h3
        rw [h3, download_one_deleted]
      cases hopt : (download_one db env sid fs).1 <;> simp [hdl, hopt, h2]

/-- `compose_video` creates the concat manifest and the output temp file and
deletes exactly the concat manifest, on both the success and failure path. -/
theorem compose_video_fs (env : CompEnv) (fs : FS) :
    (compose_video env fs).1.deleted = fs.deleted ++ ["tmp" ++ toString fs.counter] ∧
    (compose_video env fs).1.created =
      (fs.created ++ ["tmp" ++ toString fs.counter])
        ++ ["tmp" ++ toString (fs.counter + 1)] := by
  unfold compose_video FS.fresh FS.remove
  cases env.ffmpegOk <;> exact ⟨rfl, rfl⟩

/-! ## Claim theorems -/

/-- C9: calling `create_render` on a project that exists but has zero
segments fails synchronously with the "has no segments" `ValueError`, and
the world — in particular the `render_jobs` table — is unchanged. -/
theorem create_render_empty_project (w : World) (pid newId now : Nat)
    (p : Project) (hp : w.db.findProject pid = some p)
    (hs : w.db.projectSegments pid = []) :
    create_render_job w newId now pid = (w, .error (.emptyProject pid)) := by
  unfold create_render_job
  rw [hp, hs]
  rfl

/-- C9 witness: the empty project 5 of `w9`. -/
theorem create_render_empty_project_witness :
    w9.db.findProject 5 = some ⟨5, "proj"⟩ ∧
    w9.db.projectSegments 5 = [] ∧
    create_render_job w9 1 0 5 = (w9, .error (.emptyProject 5)) :=
  ⟨by decide, by decide,
    create_render_empty_project w9 5 1 0 ⟨5, "proj"⟩ (by decide) (by decide)⟩

/-- C5 counterexample: segment 1 stayed COMPLETED, is listed in the prior
completed render, and its asset URL is non-null (the empty string), so the
claim places it outside the regeneration set; the code regenerates it. -/
theorem identify_regen_counterexample :
    identify_segments_to_regenerate [c5seg] (some c5last) = [c5seg] ∧
    ¬ specRegenCond c5last c5seg := by
  exact ⟨by decide, by decide⟩

/-- C5 amended: with no prior completed render the regeneration set is
exactly the segments whose status is not COMPLETED; otherwise it is exactly
the current segments whose id is absent from the prior render's
`segment_ids`, or whose status is not COMPLETED, or whose asset URL is null
**or empty**. -/
theorem identify_regen_spec (current : List Segment) :
    identify_segments_to_regenerate current none
        = current.filter (fun s => decide (s.status ≠ .completed)) ∧
    ∀ lr : RenderJob,
      identify_segments_to_regenerate current (some lr)
        = current.filter (fun s => decide (amendedRegenCond lr s)) := by
  constructor
  · rfl
  · intro lr
    unfold identify_segments_to_regenerate
    exact List.filter_congr (fun s _ => regen_test_eq_amended lr s)

/-- C5 amended witness: a two-segment project against the prior render
`c5last` — the empty-URL segment is regenerated, a live one is not. -/
theorem identify_regen_spec_witness :
    identify_segments_to_regenerate [c5seg] (some c5last)
      = List.filter (fun s => decide (amendedRegenCond c5last s)) [c5seg] :=
  (identify_regen_spec [c5seg]).2 c5last

/-- C10: an update request that supplies only `order_index` changes exactly
that field — status, asset URL, prompt and `model_params` are untouched;
the PENDING reset and URL nulling require `prompt` or `model_params` to be
supplied. -/
theorem update_segment_order_only (s : Segment) (u : SegmentUpdate)
    (hp : u.prompt = none) (hm : u.model_params = none) :
    (update_segment s u).status = s.status ∧
    (update_segment s u).s3_asset_url = s.s3_asset_url ∧
    (update_segment s u).prompt = s.prompt ∧
    (update_segment s u).model_params = s.model_params ∧
    (update_segment s u).order_index = u.order_index.getD s.order_index := by
  unfold update_segment
  rw [hp, hm]
  cases u.order_index <;> simp

/-- C10 witness: updating segment `s10` with only `order_index := 7`. -/
theorem update_segment_order_only_witness :
    (⟨some 7, none, none⟩ : SegmentUpdate).prompt = none ∧
    ((update_segment s10 ⟨some 7, none, none⟩).status = s10.status ∧
      (update_segment s10 ⟨some 7, none, none⟩).s3_asset_url = s10.s3_asset_url ∧
      (update_segment s10 ⟨some 7, none, none⟩).prompt = s10.prompt ∧
      (update_segment s10 ⟨some 7, none, none⟩).model_params = s10.model_params ∧
      (update_segment s10 ⟨some 7, none, none⟩).order_index
        = (some 7).getD s10.order_index) :=
  ⟨rfl, update_segment_order_only s10 ⟨some 7, none, none⟩ rfl rfl⟩

/-- C7: when the handler raises, `consume_messages` (with the workers'
`auto_ack=False`) negatively acknowledges the message with `requeue=False`,
and such a message is **not** redelivered by the broker (the queue has no
dead-letter exchange), contradicting the claimed unack/redeliver behavior. -/
theorem consume_nack_drops_failed_message :
    message_callback false true false = .nackedNoRequeue ∧
    brokerRedelivers .nackedNoRequeue = false :=
  ⟨rfl, rfl⟩

/-- C1: on the success path of a segment-generation message — the adapter
reported COMPLETED and the asset was uploaded — the worker marks the
segment COMPLETED, but the RenderJob row is left untouched (its
`segments_completed` stays 0 and its status stays PROCESSING even though
this was the final segment, `segments_total = 1`) and no composition task
is enqueued; only the advisory Redis counter is incremented. -/
theorem ai_worker_success_leaves_render_job_untouched :
    (c1run.1.db.findSegment 1).map Segment.status = some .completed ∧
    c1run.1.db.findRenderJob 9 = some c1job ∧
    c1job.segments_completed = 0 ∧
    c1job.segments_total = 1 ∧
    c1job.status = .processing ∧
    c1run.1.broker.video_composition = [] ∧
    (c1run.1.redis.jobs.find? (fun p => decide (p.1 = 9))).map (fun p => p.2.segments_completed)
      = some 1 := by
  decide

/-- C3: redelivering the generation message of a segment that is already
COMPLETED drives the adapter again (one `initiate_generation` call instead
of the claimed none), and when that second run fails the segment row is
overwritten to FAILED — the final state differs from the single-delivery
state, refuting the idempotence claim. -/
theorem redelivery_calls_adapter_and_mutates :
    c3run.2 = 1 ∧
    (c3run.1.db.findSegment 1).map Segment.status = some .failed ∧
    (c3world.db.findSegment 1).map Segment.status = some .completed := by
  decide

/-- C6: when `initiate_generation` raises a retryable CONNECTION error on
the first attempt and would succeed on the second, the worker performs
exactly one initiate call — no retry — and marks the segment FAILED with
the connection error code, a user-visible failure. -/
theorem initiate_connection_error_not_retried :
    c6run.2 = 1 ∧
    (c6run.1.db.findSegment 1).map Segment.status = some .failed ∧
    (c6run.1.db.findSegment 1).map Segment.error_code
      = some (some "COMFYUI_CONNECTION_ERROR") := by
  decide

/-- C4: on a project whose segments are all COMPLETED with live asset URLs,
`create_render` does return a job with `segments_total = 0`, but it
enqueues neither generation nor composition tasks, so with both queues
empty the workers have nothing to drain and the job stays PROCESSING —
it never reaches COMPLETED via an immediate composition. -/
theorem create_render_zero_total_stalls :
    (c4run.2.toOption.map RenderJob.segments_total = some 0) ∧
    (c4run.2.toOption.map RenderJob.status = some .processing) ∧
    c4run.1.broker.segment_generation = [] ∧
    c4run.1.broker.video_composition = [] ∧
    (c4run.1.db.findRenderJob 9).map RenderJob.status = some .processing := by
  decide

/-- A row property preserved by `setRenderJob` when the per-row update
preserves it. -/
theorem setRenderJob_preserves {P : RenderJob → Prop} (db : DB) (rid : Nat)
    (f : RenderJob → RenderJob) (hf : ∀ r, P r → P (f r))
    (h : ∀ r ∈ db.render_jobs, P r) :
    ∀ r ∈ (db.setRenderJob rid f).render_jobs, P r := by
  intro r hr
  rcases List.mem_map.1 hr with ⟨a, ha, rfl⟩
  by_cases hid : a.id = rid
  · simpa [hid] using hf a (h a ha)
  · simpa [hid] using h a ha

/-- Dispatching segment tasks never touches the `render_jobs` table. -/
theorem foldl_dispatch_render_jobs (l : List Segment) (rid : Nat) :
    ∀ w : World,
      ((l.foldl (fun acc seg => dispatch_segment_task acc seg rid) w).db.render_jobs)
        = w.db.render_jobs := by
  induction l with
  | nil => intro w; rfl
  | cons seg rest ih =>
      intro w
      rw [List.foldl_cons, ih]
      rfl

/-- The AI worker never touches the `render_jobs` table. -/
theorem process_segment_task_render_jobs (w : World) (msg : SegTask)
    (oracle : AdapterOracle) :
    (process_segment_task w msg oracle).1.db.render_jobs = w.db.render_jobs := by
  unfold process_segment_task handle_segment_failure
  dsimp only
  repeat' split
  all_goals rfl

/-- Every exit path of the composition handler performs exactly the
COMPOSITING commit followed by the except branch's FAILED commit on the
addressed render job, for some exception text: the COMPLETED/`s3_final_url`
commit is unreachable (the `generate_composition_key` call raises
`AttributeError` first). -/
theorem process_composition_task_db_shape (w : World) (env : CompEnv)
    (msg : CompTask) :
    ∃ e : String,
      (process_composition_task w env msg).db
        = (w.db.setRenderJob msg.render_job_id markCompositing).setRenderJob
            msg.render_job_id (markFailed e) := by
  unfold process_composition_task compositionExceptBranch
  dsimp only
  repeat' split
  all_goals exact ⟨_, rfl⟩

/-- `create_render_job` preserves the pipeline invariant: the rows it
writes are the new PENDING row and PROCESSING updates, never COMPLETED and
never a final URL. -/
theorem create_render_preserves_inv (w : World) (newId now pid : Nat)
    (hw : neverCompletedInv w.db) :
    neverCompletedInv (create_render_job w newId now pid).1.db := by
  unfold create_render_job
  split
  · exact hw
  · dsimp only
    by_cases hemp : (w.db.projectSegments pid).isEmpty = true
    · rw [if_pos hemp]
      exact hw
    · rw [if_neg hemp]
      dsimp only
      intro r hr
      rw [foldl_dispatch_render_jobs] at hr
      refine @setRenderJob_preserves
        (fun r => r.s3_final_url = none ∧ r.status ≠ RenderJobStatus.completed)
        _ _ _ ?_ ?_ r hr
      · intro r0 h0
        exact ⟨h0.1, by simp⟩
      · intro r0 h0
        rcases List.mem_append.1 h0 with h1 | h1
        · exact hw r0 h1
        · simp only [List.mem_singleton] at h1
          subst h1
          exact ⟨rfl, by simp⟩

/-- C2 (invariant I2): in the pipeline as wired, no handler ever commits
`status = COMPLETED` or a non-null `s3_final_url` — the composition
worker's COMPLETED commit is dead code behind the `AttributeError` at the
missing `generate_composition_key` (worker.py line 96), and the
orchestrator's `handle_composition_completion` is invoked by no production
code.  So from any state where every render job has a null final URL and a
non-COMPLETED status (as in every state the handlers can produce), each
handler step preserves that property, and with it the invariant
`status = COMPLETED ⇔ s3_final_url ≠ null` after every commit. -/
theorem renderjob_completed_iff_final_url (w w2 : World)
    (hw : neverCompletedInv w.db) (hstep : HandlerStep w w2) :
    neverCompletedInv w2.db ∧ finalUrlInvariant w2.db := by
  have main : neverCompletedInv w2.db := by
    cases hstep with
    | createRender newId now pid =>
        exact create_render_preserves_inv w newId now pid hw
    | segmentTask msg oracle =>
        intro r hr
        rw [process_segment_task_render_jobs] at hr
        exact hw r hr
    | compositionTask env msg =>
        intro r hr
        obtain ⟨e, hdb⟩ := process_composition_task_db_shape w env msg
        have hr2 : r ∈ ((w.db.setRenderJob msg.render_job_id
            markCompositing).setRenderJob msg.render_job_id
              (markFailed e)).render_jobs := by
          rw [← hdb]
          exact hr
        refine setRenderJob_preserves _ _ _ ?_
          (setRenderJob_preserves _ _ _ ?_ hw) r hr2
        · intro r0 h0
          exact ⟨h0.1, by simp [markFailed]⟩
        · intro r0 h0
          exact ⟨h0.1, by simp [markCompositing]⟩
  refine ⟨main, ?_⟩
  intro r hr
  have h := main r hr
  constructor
  · intro hc
    exact absurd hc h.2
  · intro hne
    exact absurd h.1 hne

/-- C2 witness: the invariant holds before and after the composition worker
handles the task of fixture `c2world` (the nominal success scenario of
`c2env`). -/
theorem renderjob_completed_iff_final_url_witness :
    neverCompletedInv c2world.db ∧
    (neverCompletedInv (c2world.afterComposition c2env ⟨9, 5, [1]⟩).db ∧
      finalUrlInvariant (c2world.afterComposition c2env ⟨9, 5, [1]⟩).db) :=
  ⟨by decide,
    renderjob_completed_iff_final_url c2world
      (c2world.afterComposition c2env ⟨9, 5, [1]⟩) (by decide)
      (HandlerStep.compositionTask c2world c2env ⟨9, 5, [1]⟩)⟩

/-- C8 counterexample: on a task whose download and ffmpeg run succeed
(the exit path through the `AttributeError` at the missing
`generate_composition_key`) the worker created three per-task temp files
(the downloaded segment copy `tmp0`, the concat manifest `tmp1` and the
output `tmp2`) but deleted only the manifest: the downloaded temp file
survives this exit path, so not all per-task temp files are cleaned. -/
theorem composition_leaves_temp_files :
    c8run.fs.created = ["tmp0", "tmp1", "tmp2"] ∧
    c8run.fs.deleted = ["tmp1"] ∧
    "tmp0" ∉ c8run.fs.deleted := by
  decide

/-- C8 amended: on every exit path the composition worker deletes only
files among the per-task temporaries it created — at most one file, the
concat manifest removed in `_compose_video`'s `finally` — never a stored
blob; the downloaded segment temp files and the output file are left
behind (the sole `_cleanup_files` call sits past the `AttributeError` at
the missing `generate_composition_key`, so it is unreachable, and the
except branch cleans nothing), and the Segment rows and the stored blob
keys are unchanged by composition. -/
theorem composition_deletes_only_own_temps (w : World) (env : CompEnv)
    (msg : CompTask) :
    (process_composition_task w env msg).fs.deleted ⊆
        (process_composition_task w env msg).fs.created ∧
    (process_composition_task w env msg).fs.deleted.length ≤ 1 ∧
    (process_composition_task w env msg).db.segments = w.db.segments ∧
    (process_composition_task w env msg).storage = w.storage := by
  unfold process_composition_task
  rcases hdl : download_segments
      (w.db.setRenderJob msg.render_job_id
        (fun r => { r with status := RenderJobStatus.compositing }))
      env msg.segment_ids ⟨0, [], []⟩ with ⟨files, fs⟩
  have hfsdel : fs.deleted = [] := by
    have h3 := download_segments_deleted
      (w.db.setRenderJob msg.render_job_id
        (fun r => { r with status := RenderJobStatus.compositing }))
      env msg.segment_ids ⟨0, [], []⟩
    rw [hdl] at h3
    exact h3
  simp only [hdl]
  split
  · -- "No segment files to compose": the except branch keeps the task's FS
    refine ⟨?_, ?_, rfl, rfl⟩
    · show fs.deleted ⊆ fs.created
      rw [hfsdel]
      exact List.nil_subset _
    · show fs.deleted.length ≤ 1
      rw [hfsdel]
      exact Nat.zero_le 1
  · split
    next fs2 e hcv =>
      -- ffmpeg failed: except branch with the post-compose FS
      have hfs2 := compose_video_fs env fs
      rw [hcv] at hfs2
      obtain ⟨hd, hc⟩ := hfs2
      refine ⟨?_, ?_, rfl, rfl⟩
      · show fs2.deleted ⊆ fs2.created
        rw [hd, hc, hfsdel]
        intro a ha
        simp at ha
        simp [ha]
      · show fs2.deleted.length ≤ 1
        rw [hd, hfsdel]
        simp
    next fs2 outFile hcv =>
      -- ffmpeg succeeded: the AttributeError at the missing
      -- generate_composition_key routes into the except branch before any
      -- upload or cleanup; the FS still holds every temp but the manifest
      have hfs2 := compose_video_fs env fs
      rw [hcv] at hfs2
      obtain ⟨hd, hc⟩ := hfs2
      refine ⟨?_, ?_, rfl, rfl⟩
      · show fs2.deleted ⊆ fs2.created
        rw [hd, hc, hfsdel]
        intro a ha
        simp at ha
        simp [ha]
      · show fs2.deleted.length ≤ 1
        rw [hd, hfsdel]
        simp
